import Mathlib

/-!
Shallow embedding of `awq/models/mixtral.py`: the Mixtral model adapter of an
AWQ quantization library.  Python objects become Lean structures; tensors are
modelled by their shape plus an opaque identifier; exceptions are reified into
an `Except` error type.  External collaborator classes referenced by the file
(`fuse_qkv`, `MixtralBlock`, `MixtralModel`, `FasterTransformerRMSNorm`) live
elsewhere in the repository and are modelled, following the spec, as opaque
records of their constructor arguments.
-/

namespace Awq

/-- A torch tensor, modelled by its shape together with an opaque identifier
standing for its contents. -/
structure Tensor where
  shape : List Nat
  data : Nat
deriving DecidableEq

/-- A `torch.nn.Linear` module: only its `weight` tensor is relevant here. -/
structure Linear where
  weight : Tensor
deriving DecidableEq

/-- A `MixtralRMSNorm` layernorm module, with `weight` and `variance_epsilon`
(the epsilon is opaque to this file, so it is an identifier). -/
structure RMSNorm where
  weight : Tensor
  variance_epsilon : Nat
deriving DecidableEq

/-- The `self_attn` submodule of a decoder layer: four projections. -/
structure SelfAttn where
  q_proj : Linear
  k_proj : Linear
  v_proj : Linear
  o_proj : Linear
deriving DecidableEq

/-- A `MixtralBLockSparseTop2MLP` expert module with its three linears. -/
structure Expert where
  w1 : Linear
  w2 : Linear
  w3 : Linear
deriving DecidableEq

/-- The `block_sparse_moe` submodule: gate, expert list, and the integer
attributes read by `get_moe_for_scaling`. -/
structure SparseMoeBlock where
  gate : Linear
  experts : List Expert
  num_experts : Nat
  hidden_dim : Nat
deriving DecidableEq

/-- A `MixtralDecoderLayer`.  `device` models the device of the first entry of
`module.state_dict()`, read by the fuser. -/
structure MixtralDecoderLayer where
  self_attn : SelfAttn
  block_sparse_moe : SparseMoeBlock
  input_layernorm : RMSNorm
  post_attention_layernorm : RMSNorm
  device : Nat
deriving DecidableEq

/-- A `torch.nn.Embedding` module (`embed_tokens`). -/
structure Embedding where
  weight : Tensor
deriving DecidableEq

/-- The fields of `model.config` that this file reads.  `rope_theta` is a
float in the source; it is opaque here, hence an identifier. -/
structure Config where
  hidden_size : Nat
  num_attention_heads : Nat
  num_key_value_heads : Nat
  max_new_tokens : Nat
  rope_theta : Nat
  vocab_size : Nat
deriving DecidableEq

/-- The inner `model.model` of a pretrained `MixtralForCausalLM`: the layer
stack plus `embed_tokens` and `norm`. -/
structure InnerModel where
  layers : List MixtralDecoderLayer
  embed_tokens : Embedding
  norm : RMSNorm
deriving DecidableEq

/-- A pretrained `MixtralForCausalLM` as this file sees it: the inner model
and the config. -/
structure Model where
  model : InnerModel
  config : Config
deriving DecidableEq

/-- The exceptions `_transformers_version_check` can let escape, reified.
`unpack` is the `ValueError` raised by tuple unpacking when the version does
not split into exactly three or four components; `intParse` is the
`ValueError` raised by `int(...)` on a non-numeric component; `compat` is the
user-facing `Exception` naming the required minimum `4.37.0.dev0`. -/
inductive CheckError
  | unpack
  | intParse
  | compat
deriving DecidableEq

/-- Helper for `pySplitDot`: walks the character list, cutting at each `.`.
This is Python `str.split` restricted to the one-character separator used by
the source: every separator occurrence cuts, so `""` yields `[""]` and
adjacent separators yield empty components. -/
def splitDotAux : List Char → List Char → List String
  | [], acc => [String.mk acc.reverse]
  | c :: cs, acc =>
    if c = '.' then String.mk acc.reverse :: splitDotAux cs []
    else splitDotAux cs (c :: acc)

/-- Python `version.split('.')`. -/
def pySplitDot (s : String) : List String :=
  splitDotAux s.toList []

/-- Helper for `pyInt`: folds decimal digits, failing on any non-digit. -/
def parseDigitsAux : List Char → Nat → Option Nat
  | [], acc => some acc
  | c :: cs, acc =>
    if c.isDigit then parseDigitsAux cs (acc * 10 + (c.toNat - 48))
    else none

/-- A non-empty all-digit character list parsed as a decimal number. -/
def parseDigits : List Char → Option Nat
  | [] => none
  | c :: cs => parseDigitsAux (c :: cs) 0

/-- Python `int(s)` on the strings this check feeds it: an optional leading
minus sign followed by at least one decimal digit; anything else raises
`ValueError`, modelled as `none`. -/
def pyInt (s : String) : Option Int :=
  match s.toList with
  | '-' :: cs => (parseDigits cs).map (fun n => -(n : Int))
  | cs => (parseDigits cs).map (fun n => (n : Int))

/-- The body of the guard after unpacking: Python evaluates
`int(major) == 4 and int(minor) < 37` left to right with short-circuiting, so
`int(minor)` is only evaluated when `int(major)` equals 4. -/
def versionCompatCheck (major minor : String) : Except CheckError Unit :=
  match pyInt major with
  | none => .error .intParse
  | some ma =>
    if ma = 4 then
      match pyInt minor with
      | none => .error .intParse
      | some mi => if mi < 37 then .error .compat else .ok ()
    else .ok ()

/-- `_transformers_version_check` (source line 14), with the ambient global
`transformers.__version__` passed explicitly.  The version is split on `.`;
a four-component result unpacks as `major, minor, patch, dev`, anything else
is unpacked as `major, minor, patch` (raising `ValueError` unless it has
exactly three components), and then the compatibility guard runs. -/
def transformers_version_check (version : String) : Except CheckError Unit :=
  match pySplitDot version with
  | [major, minor, _patch, _dev] => versionCompatCheck major minor
  | [major, minor, _patch] => versionCompatCheck major minor
  | _ => .error .unpack

example : transformers_version_check "4.36.2" = .error .compat := rfl
example : transformers_version_check "4.37.0" = .ok () := rfl
example : transformers_version_check "4.37.0.dev0" = .ok () := rfl
example : transformers_version_check "4.37" = .error .unpack := rfl
example : transformers_version_check "3.0.0" = .ok () := rfl

/-- `MixtralAWQForCausalLM.get_model_layers` (source line 35): runs the
version check (whose exception propagates) and then returns
`model.model.layers`. -/
def MixtralAWQForCausalLM.get_model_layers (version : String) (model : Model) :
    Except CheckError (List MixtralDecoderLayer) :=
  match transformers_version_check version with
  | .error e => .error e
  | .ok () => .ok model.model.layers

/-- The dict returned by `get_act_for_scaling`. -/
structure ActScaling where
  is_scalable : Bool
deriving DecidableEq

/-- `MixtralAWQForCausalLM.get_act_for_scaling` (source line 40): builds
`dict(is_scalable=False)` from any module. -/
def MixtralAWQForCausalLM.get_act_for_scaling {α : Type} (module : α) : ActScaling :=
  { is_scalable := false }

/-- The dict returned by `get_moe_for_scaling`: its exact keys are
`scale_name`, `scale_layer`, `scale_shape`. -/
structure MoeScaling where
  scale_name : String
  scale_layer : SparseMoeBlock
  scale_shape : Nat × Nat
deriving DecidableEq

/-- `MixtralAWQForCausalLM.get_moe_for_scaling` (source line 46). -/
def MixtralAWQForCausalLM.get_moe_for_scaling (module : MixtralDecoderLayer) : MoeScaling :=
  { scale_name := "block_sparse_moe"
    scale_layer := module.block_sparse_moe
    scale_shape := (module.block_sparse_moe.num_experts, module.block_sparse_moe.hidden_dim) }

/-- A reference to a submodule of a decoder layer, as placed in the `prev_op`,
`layers` and `module2inspect` slots of a scaling descriptor (the Python code
stores the module objects themselves; the slots are heterogeneous). -/
inductive SubModule
  | linear (l : Linear)
  | norm (n : RMSNorm)
  | attn (a : SelfAttn)
  | moe (m : SparseMoeBlock)
  | expert (e : Expert)
deriving DecidableEq

/-- One scaling descriptor dict built by `get_layers_for_scaling`.  The source
builds dicts with key sets `{prev_op, layers, inp, module2inspect, kwargs}`,
`{prev_op, layers, inp, module2inspect}` or `{prev_op, layers, inp}`; absent
keys are `none`.  `inp` holds the tensor looked up in `input_feat`; `kwargs`
holds the opaque `module_kwargs` value when present. -/
structure ScaleDescriptor where
  prev_op : SubModule
  layers : List SubModule
  inp : Tensor
  module2inspect : Option SubModule
  kwargs : Option Nat
deriving DecidableEq

/-- The `input_feat` dictionary: a total map from feature keys to tensors
(the source assumes every key it looks up is present). -/
def InputFeat : Type := String → Tensor

/-- The `input_feat` key used for expert `i`'s `w2` descriptor:
`f-string "block_sparse_moe.experts.\x7bi\x7d.w2"`. -/
def expertW2Key (i : Nat) : String :=
  "block_sparse_moe.experts." ++ toString i ++ ".w2"

/-- The first descriptor (attention input, source line 62): `q_proj`,
`k_proj`, `v_proj` grouped under `prev_op=input_layernorm`. -/
def attnInputDescriptor (module : MixtralDecoderLayer) (input_feat : InputFeat)
    (module_kwargs : Nat) : ScaleDescriptor :=
  { prev_op := .norm module.input_layernorm
    layers := [.linear module.self_attn.q_proj, .linear module.self_attn.k_proj,
               .linear module.self_attn.v_proj]
    inp := input_feat "self_attn.q_proj"
    module2inspect := some (.attn module.self_attn)
    kwargs := some module_kwargs }

/-- The conditional attention-output descriptor (source line 71). -/
def attnOutDescriptor (module : MixtralDecoderLayer) (input_feat : InputFeat) :
    ScaleDescriptor :=
  { prev_op := .linear module.self_attn.v_proj
    layers := [.linear module.self_attn.o_proj]
    inp := input_feat "self_attn.o_proj"
    module2inspect := none
    kwargs := none }

/-- The experts-group descriptor (source line 81): its `layers` entry is the
expert module list itself. -/
def moeDescriptor (module : MixtralDecoderLayer) (input_feat : InputFeat) :
    ScaleDescriptor :=
  { prev_op := .moe module.block_sparse_moe
    layers := module.block_sparse_moe.experts.map SubModule.expert
    inp := input_feat "block_sparse_moe"
    module2inspect := some (.moe module.block_sparse_moe)
    kwargs := none }

/-- The per-expert `w2` descriptor appended for `i, expert` in
`enumerate(module.block_sparse_moe.experts)` (source line 90). -/
def expertW2Descriptor (input_feat : InputFeat) (i : Nat) (expert : Expert) :
    ScaleDescriptor :=
  { prev_op := .linear expert.w3
    layers := [.linear expert.w2]
    inp := input_feat (expertW2Key i)
    module2inspect := none
    kwargs := none }

/-- `MixtralAWQForCausalLM.get_layers_for_scaling` (source line 58): starts
from the empty list, appends the attention-input descriptor, appends the
attention-output descriptor only when the `v_proj` and `o_proj` weight shapes
coincide, appends the experts-group descriptor, then loops over
`enumerate(...experts)` appending one `w2` descriptor per expert. -/
def MixtralAWQForCausalLM.get_layers_for_scaling (module : MixtralDecoderLayer)
    (input_feat : InputFeat) (module_kwargs : Nat) : List ScaleDescriptor :=
  let layers : List ScaleDescriptor := []
  let layers := layers ++ [attnInputDescriptor module input_feat module_kwargs]
  let layers :=
    if module.self_attn.v_proj.weight.shape = module.self_attn.o_proj.weight.shape then
      layers ++ [attnOutDescriptor module input_feat]
    else layers
  let layers := layers ++ [moeDescriptor module input_feat]
  let layers := module.block_sparse_moe.experts.enum.foldl
    (fun acc ie => acc ++ [expertW2Descriptor input_feat ie.1 ie.2]) layers
  layers

/-- Modelled from the spec: `FasterTransformerRMSNorm` lives in
`awq.modules.fused.norm`, outside this file; per the spec it is an external
collaborator, so it is modelled as the record of its two constructor
arguments. -/
structure FasterTransformerRMSNorm where
  weight : Tensor
  variance_epsilon : Nat
deriving DecidableEq

/-- Modelled from the spec: `fuse_qkv` lives in `awq.utils.fused_utils`,
outside this file; it is one of the external collaborator calls the spec
names, so its result is modelled as the record of the arguments the source
passes it (the decoder layer and its three projections). -/
structure FusedQKV where
  module : MixtralDecoderLayer
  q_proj : Linear
  k_proj : Linear
  v_proj : Linear
deriving DecidableEq

/-- Modelled from the spec: `MixtralBlock` is the fused runtime block class
from `awq.modules.fused.block`, an external collaborator constructor; it is
modelled as the record of the keyword arguments the source passes it. -/
structure MixtralBlock where
  hidden_size : Nat
  n_heads : Nat
  n_kv_heads : Nat
  qkv_layer : FusedQKV
  o_proj : Linear
  moe : SparseMoeBlock
  norm_1 : FasterTransformerRMSNorm
  norm_2 : FasterTransformerRMSNorm
  dev : Nat
  max_seq_len : Nat
  rope_theta : Nat
deriving DecidableEq

/-- Modelled from the spec: `MixtralModel` is the fused runtime model class
from `awq.modules.fused.model`, an external collaborator constructor; it is
modelled as the record of its four constructor arguments (it exposes a
`blocks` attribute holding its block list). -/
structure MixtralModel where
  vocab_size : Nat
  blocks : List MixtralBlock
  embed_tokens : Embedding
  norm : RMSNorm
deriving DecidableEq

/-- The top-level model object after `fuse_transformer` reassigned
`self.model.model`: same `config`, inner model replaced by the fused
`MixtralModel`. -/
structure FusedCausalLM where
  model : MixtralModel
  config : Config
deriving DecidableEq

/-- `MixtralFuser` (source line 100) holds the model passed to `__init__`.
(`__init__` also computes a `mixtral_blocks` list of named decoder-layer
modules that no other code reads; it is omitted.) -/
structure MixtralFuser where
  model : Model
deriving DecidableEq

/-- The body of the `fuse_transformer` loop for one decoder layer (source
lines 112-141): reads the device of the first state-dict entry, fuses the
three attention projections, wraps both layernorms, and builds one
`MixtralBlock` from the layer and the config. -/
def fuseBlockOfLayer (config : Config) (module : MixtralDecoderLayer) : MixtralBlock :=
  let device := module.device
  let qkv : FusedQKV :=
    { module := module
      q_proj := module.self_attn.q_proj
      k_proj := module.self_attn.k_proj
      v_proj := module.self_attn.v_proj }
  let norm_1 : FasterTransformerRMSNorm :=
    { weight := module.input_layernorm.weight
      variance_epsilon := module.input_layernorm.variance_epsilon }
  let norm_2 : FasterTransformerRMSNorm :=
    { weight := module.post_attention_layernorm.weight
      variance_epsilon := module.post_attention_layernorm.variance_epsilon }
  { hidden_size := config.hidden_size
    n_heads := config.num_attention_heads
    n_kv_heads := config.num_key_value_heads
    qkv_layer := qkv
    o_proj := module.self_attn.o_proj
    moe := module.block_sparse_moe
    norm_1 := norm_1
    norm_2 := norm_2
    dev := device
    max_seq_len := config.max_new_tokens
    rope_theta := config.rope_theta }

/-- `MixtralFuser.fuse_transformer` (source line 109): iterates over
`self.model.model.layers` in order (the `tqdm` wrapper only draws a progress
bar), appending one fused block per layer, then replaces `self.model.model`
with a `MixtralModel` built from the config's `vocab_size`, the blocks, and
the original `embed_tokens` and `norm`.  The trailing
`setattr(self.model.model, "blocks", self.model.model.blocks)` reassigns the
attribute to itself and has no effect.  State passing makes the mutation of
`self.model` explicit: the function returns the new top-level model object. -/
def MixtralFuser.fuse_transformer (self : MixtralFuser) : FusedCausalLM :=
  let blocks := self.model.model.layers.foldl
    (fun acc module => acc ++ [fuseBlockOfLayer self.model.config module]) []
  { model :=
      { vocab_size := self.model.config.vocab_size
        blocks := blocks
        embed_tokens := self.model.model.embed_tokens
        norm := self.model.model.norm }
    config := self.model.config }

/-- `MixtralAWQForCausalLM.fuse_layers` (source line 30): builds a
`MixtralFuser` and runs `fuse_transformer`. -/
def MixtralAWQForCausalLM.fuse_layers (model : Model) : FusedCausalLM :=
  (MixtralFuser.mk model).fuse_transformer

/-- The `major`/`minor` components the check manages to unpack: the first two
components when the split has exactly three or exactly four, nothing
otherwise. -/
def majorMinorOf (version : String) : Option (String × String) :=
  match pySplitDot version with
  | [major, minor, _patch, _dev] => some (major, minor)
  | [major, minor, _patch] => some (major, minor)
  | _ => none

/-- The spec's reading of "version below the required minimum 4.37.0.dev0",
written from the claim's words for refinement comparison (not from the
source): the major component is less than 4, or it is 4 and the minor
component is less than 37. -/
def versionBelowMinimumSpec (version : String) : Bool :=
  match pySplitDot version with
  | major :: minor :: _ =>
    match pyInt major, pyInt minor with
    | some ma, some mi => ma < 4 || (ma = 4 && mi < 37)
    | _, _ => false
  | _ => false

/-- Whether a descriptor slot refers to a module that already exists inside
the given decoder layer (one of its layernorms, its attention block or one of
that block's projections, its MoE block or its gate, or one of its experts or
their linears). -/
def isSubmoduleOf (s : SubModule) (module : MixtralDecoderLayer) : Bool :=
  match s with
  | .linear l =>
      l = module.self_attn.q_proj || l = module.self_attn.k_proj ||
      l = module.self_attn.v_proj || l = module.self_attn.o_proj ||
      l = module.block_sparse_moe.gate ||
      module.block_sparse_moe.experts.any (fun e => l = e.w1 || l = e.w2 || l = e.w3)
  | .norm n => n = module.input_layernorm || n = module.post_attention_layernorm
  | .attn a => a = module.self_attn
  | .moe mo => mo = module.block_sparse_moe
  | .expert e => module.block_sparse_moe.experts.any (fun e2 => e = e2)

/-- Every module reference held by a descriptor (its `prev_op`, each entry of
its `layers`, and its `module2inspect` when present) is a view of an existing
submodule of the given layer. -/
def descriptorViewsOk (module : MixtralDecoderLayer) (d : ScaleDescriptor) : Bool :=
  isSubmoduleOf d.prev_op module &&
  d.layers.all (fun s => isSubmoduleOf s module) &&
  (match d.module2inspect with
   | some s => isSubmoduleOf s module
   | none => true)

/-! Concrete sample objects, used by witnesses. -/

def sampleTensor : Tensor := ⟨[2, 2], 0⟩

def sampleLinear : Linear := ⟨sampleTensor⟩

def sampleNorm : RMSNorm := ⟨sampleTensor, 0⟩

def sampleAttn : SelfAttn := ⟨sampleLinear, sampleLinear, sampleLinear, sampleLinear⟩

def sampleExpert : Expert := ⟨sampleLinear, sampleLinear, sampleLinear⟩

def sampleMoe : SparseMoeBlock := ⟨sampleLinear, [sampleExpert], 1, 2⟩

def sampleLayer : MixtralDecoderLayer := ⟨sampleAttn, sampleMoe, sampleNorm, sampleNorm, 0⟩

def sampleConfig : Config := ⟨2, 1, 1, 4, 0, 8⟩

def sampleModel : Model := ⟨⟨[sampleLayer], ⟨sampleTensor⟩, sampleNorm⟩, sampleConfig⟩

/-! Helper lemmas shared by the claim theorems. -/

/-- A loop that appends one element per iteration builds `init ++ l.map f`. -/
lemma foldl_append_map {α β : Type} (f : α → β) (l : List α) (init : List β) :
    l.foldl (fun acc x => acc ++ [f x]) init = init ++ l.map f := by
  induction l generalizing init with
  | nil => simp
  | cons x xs ih => simp [ih, List.append_assoc]

/-- Structural form of `get_layers_for_scaling`: the singleton attention-input
descriptor, the conditional attention-output descriptor, the experts-group
descriptor, then one `w2` descriptor per enumerated expert. -/
lemma get_layers_for_scaling_eq (module : MixtralDecoderLayer)
    (input_feat : InputFeat) (module_kwargs : Nat) :
    MixtralAWQForCausalLM.get_layers_for_scaling module input_feat module_kwargs =
      [attnInputDescriptor module input_feat module_kwargs]
        ++ (if module.self_attn.v_proj.weight.shape = module.self_attn.o_proj.weight.shape
            then [attnOutDescriptor module input_feat] else [])
        ++ [moeDescriptor module input_feat]
        ++ module.block_sparse_moe.experts.enum.map
            (fun ie => expertW2Descriptor input_feat ie.1 ie.2) := by
  unfold MixtralAWQForCausalLM.get_layers_for_scaling
  dsimp only
  simp only [foldl_append_map]
  split <;> simp [List.append_assoc]

/-- The guard body reaches the compatibility error exactly when the major
component parses to 4 and the minor component parses below 37. -/
lemma versionCompatCheck_compat_iff (a b : String) :
    versionCompatCheck a b = .error .compat ↔
      pyInt a = some 4 ∧ ∃ mi, pyInt b = some mi ∧ mi < 37 := by
  unfold versionCompatCheck
  rcases ha : pyInt a with _ | ma
  · simp
  · by_cases h4 : ma = (4 : Int)
    · subst h4
      rcases hb : pyInt b with _ | mb
      · simp
      · by_cases hlt : mb < (37 : Int)
        · simp [hlt]
        · simp [hlt]
    · simp [h4]

/-! Claim theorems. -/

/-- C1 counterexample: the version string `"3.0.0"` is below the required
minimum 4.37.0.dev0 in the spec's sense, yet `_transformers_version_check`
returns without raising any error, refuting the claimed equivalence. -/
theorem version_check_below_minimum_counterexample :
    versionBelowMinimumSpec "3.0.0" = true ∧
    transformers_version_check "3.0.0" = Except.ok () :=
  ⟨rfl, rfl⟩

/-- C1 (amended): `_transformers_version_check` raises the fatal user-facing
compatibility error (naming the required minimum 4.37.0.dev0) if and only if
the version splits into exactly three or four dot-separated components whose
major component parses to the integer 4 and whose minor component parses to
an integer below 37; versions whose major component is not 4 — including
versions below 4 — pass the guard without this error. -/
theorem version_check_compat_error_characterization (version : String) :
    transformers_version_check version = Except.error CheckError.compat ↔
      ∃ major minor, majorMinorOf version = some (major, minor) ∧
        pyInt major = some 4 ∧ ∃ mi, pyInt minor = some mi ∧ mi < 37 := by
  unfold transformers_version_check majorMinorOf
  rcases pySplitDot version with _ | ⟨a, _ | ⟨b, _ | ⟨c, _ | ⟨d, _ | ⟨e, rest⟩⟩⟩⟩⟩
  · simp
  · simp
  · simp
  · rw [versionCompatCheck_compat_iff]
    constructor
    · intro h
      exact ⟨a, ⟨b, ⟨rfl, h⟩⟩⟩
    · rintro ⟨ma, mi, heq, h⟩
      simp only [Option.some.injEq, Prod.mk.injEq] at heq
      obtain ⟨rfl, rfl⟩ := heq
      exact h
  · rw [versionCompatCheck_compat_iff]
    constructor
    · intro h
      exact ⟨a, ⟨b, ⟨rfl, h⟩⟩⟩
    · rintro ⟨ma, mi, heq, h⟩
      simp only [Option.some.injEq, Prod.mk.injEq] at heq
      obtain ⟨rfl, rfl⟩ := heq
      exact h
  · simp

/-- C2: when the transformers version passes the compatibility guard,
`get_model_layers` returns exactly `model.model.layers`, unchanged. -/
theorem get_model_layers_returns_layer_stack (version : String) (model : Model)
    (h : transformers_version_check version = Except.ok ()) :
    MixtralAWQForCausalLM.get_model_layers version model =
      Except.ok model.model.layers := by
  unfold MixtralAWQForCausalLM.get_model_layers
  rw [h]

/-- C2 witness: the guard passes on `"4.37.0.dev0"` and `get_model_layers`
returns the layer stack of a concrete model. -/
theorem get_model_layers_returns_layer_stack_witness :
    transformers_version_check "4.37.0.dev0" = Except.ok () ∧
    MixtralAWQForCausalLM.get_model_layers "4.37.0.dev0" sampleModel =
      Except.ok sampleModel.model.layers :=
  ⟨rfl, get_model_layers_returns_layer_stack "4.37.0.dev0" sampleModel rfl⟩

/-- C4: `get_moe_for_scaling` returns the record whose `scale_name` is
`"block_sparse_moe"`, whose `scale_layer` is the layer's `block_sparse_moe`
submodule, and whose `scale_shape` is the pair of that submodule's
`num_experts` and `hidden_dim` (the `MoeScaling` record has exactly those
three fields). -/
theorem get_moe_for_scaling_fields (module : MixtralDecoderLayer) :
    (MixtralAWQForCausalLM.get_moe_for_scaling module).scale_name = "block_sparse_moe" ∧
    (MixtralAWQForCausalLM.get_moe_for_scaling module).scale_layer = module.block_sparse_moe ∧
    (MixtralAWQForCausalLM.get_moe_for_scaling module).scale_shape =
      (module.block_sparse_moe.num_experts, module.block_sparse_moe.hidden_dim) :=
  ⟨rfl, rfl, rfl⟩

/-- C9: `get_act_for_scaling` is a constant function: every module of any
type is reported as not activation-scalable. -/
theorem get_act_for_scaling_constant {α : Type} (module : α) :
    MixtralAWQForCausalLM.get_act_for_scaling module = { is_scalable := false } :=
  rfl

/-- C3: the result of `get_layers_for_scaling` is exactly the attention-input
descriptor, then — if and only if the `v_proj` and `o_proj` weight shapes are
equal — the attention-output descriptor, then the experts-group descriptor,
then one `w2` descriptor per expert; the shape-equality test is the only
conditional, every other descriptor being appended unconditionally. -/
theorem get_layers_for_scaling_single_branch (module : MixtralDecoderLayer)
    (input_feat : InputFeat) (module_kwargs : Nat) :
    MixtralAWQForCausalLM.get_layers_for_scaling module input_feat module_kwargs =
      [attnInputDescriptor module input_feat module_kwargs]
        ++ (if module.self_attn.v_proj.weight.shape = module.self_attn.o_proj.weight.shape
            then [attnOutDescriptor module input_feat] else [])
        ++ [moeDescriptor module input_feat]
        ++ module.block_sparse_moe.experts.enum.map
            (fun ie => expertW2Descriptor input_feat ie.1 ie.2) :=
  get_layers_for_scaling_eq module input_feat module_kwargs

/-- C5: `fuse_transformer` produces exactly one fused block per decoder
layer, in the original order of `model.model.layers`: the block list has the
same length as the layer list and its `i`-th entry is built from the `i`-th
layer. -/
theorem fuse_transformer_sequential_order (m : Model) (i : Nat) :
    (MixtralFuser.mk m).fuse_transformer.model.blocks.length = m.model.layers.length ∧
    ((MixtralFuser.mk m).fuse_transformer.model.blocks)[i]? =
      (m.model.layers[i]?).map (fuseBlockOfLayer m.config) := by
  have hb : (MixtralFuser.mk m).fuse_transformer.model.blocks
      = m.model.layers.map (fuseBlockOfLayer m.config) := by
    unfold MixtralFuser.fuse_transformer
    dsimp only
    simp only [foldl_append_map]
    simp
  constructor
  · rw [hb]
    simp
  · rw [hb]
    simp [List.getElem?_map]

/-- C6: fusion only replaces the inner `model.model`: the returned top-level
object still has an inner model (now the fused `MixtralModel`, whose
`embed_tokens` and `norm` are those of the original inner model and whose
`vocab_size` comes from the config), while the top-level `config` attribute
is unchanged. -/
theorem fuse_transformer_frame (m : Model) :
    (MixtralFuser.mk m).fuse_transformer.config = m.config ∧
    (MixtralFuser.mk m).fuse_transformer.model.embed_tokens = m.model.embed_tokens ∧
    (MixtralFuser.mk m).fuse_transformer.model.norm = m.model.norm ∧
    (MixtralFuser.mk m).fuse_transformer.model.vocab_size = m.config.vocab_size :=
  ⟨rfl, rfl, rfl, rfl⟩

/-- C7: every descriptor built by `get_layers_for_scaling` is a read-only
view: its `prev_op`, each entry of its `layers`, and its `module2inspect`
when present all refer to submodules that already exist inside the input
layer (the function itself is pure — the source contains no assignment to the
module, its submodules, its tensors, or `input_feat`). -/
theorem get_layers_for_scaling_readonly_views (module : MixtralDecoderLayer)
    (input_feat : InputFeat) (module_kwargs : Nat) :
    (MixtralAWQForCausalLM.get_layers_for_scaling module input_feat module_kwargs).all
      (descriptorViewsOk module) = true := by
  rw [get_layers_for_scaling_eq, List.all_eq_true]
  intro d hd
  simp only [List.mem_append, List.mem_singleton, List.mem_map] at hd
  rcases hd with ((rfl | hd) | rfl) | ⟨ie, hie, rfl⟩
  · simp [descriptorViewsOk, attnInputDescriptor, isSubmoduleOf]
  · by_cases hsh : module.self_attn.v_proj.weight.shape = module.self_attn.o_proj.weight.shape
    · rw [if_pos hsh] at hd
      simp only [List.mem_singleton] at hd
      subst hd
      simp [descriptorViewsOk, attnOutDescriptor, isSubmoduleOf]
    · rw [if_neg hsh] at hd
      simp at hd
  · have hexp : ∀ e ∈ module.block_sparse_moe.experts,
        isSubmoduleOf (SubModule.expert e) module = true := by
      intro e he
      simp only [isSubmoduleOf, List.any_eq_true, decide_eq_true_eq]
      exact ⟨e, he, rfl⟩
    simp only [descriptorViewsOk, moeDescriptor, Bool.and_eq_true, List.all_eq_true]
    refine ⟨⟨?_, fun s hs => ?_⟩, ?_⟩
    · simp [isSubmoduleOf]
    · obtain ⟨e, he, rfl⟩ := List.mem_map.mp hs
      exact hexp e he
    · simp [isSubmoduleOf]
  · have hmem : ie.2 ∈ module.block_sparse_moe.experts :=
      List.get?_mem (List.mem_enum_iff_get?.mp hie)
    have h3 : isSubmoduleOf (SubModule.linear ie.2.w3) module = true := by
      simp only [isSubmoduleOf, Bool.or_eq_true, decide_eq_true_eq, List.any_eq_true]
      exact Or.inr ⟨ie.2, hmem, by simp⟩
    have h2 : isSubmoduleOf (SubModule.linear ie.2.w2) module = true := by
      simp only [isSubmoduleOf, Bool.or_eq_true, decide_eq_true_eq, List.any_eq_true]
      exact Or.inr ⟨ie.2, hmem, by simp⟩
    simp [descriptorViewsOk, expertW2Descriptor, h3, h2]

/-- Dropping everything before the final segment of an append leaves exactly
that segment. -/
lemma drop_length_sub_append {α : Type} (pre post : List α) :
    (pre ++ post).drop ((pre ++ post).length - post.length) = post := by
  rw [List.length_append, Nat.add_sub_cancel, List.drop_left]

/-- C8: `get_layers_for_scaling` returns `2 + n` descriptors when the
`v_proj`/`o_proj` weight shapes differ and `3 + n` when they coincide (`n`
the number of experts); the first descriptor is always the one grouping
`q_proj`, `k_proj`, `v_proj` under `prev_op = input_layernorm`; and the final
`n` descriptors are, in expert order, exactly the per-expert records
`{prev_op = expert.w3, layers = [expert.w2], inp = input_feat key of expert
i}` — one for each expert index, so each index gets exactly one such
descriptor. -/
theorem get_layers_for_scaling_counts (module : MixtralDecoderLayer)
    (input_feat : InputFeat) (module_kwargs : Nat) :
    (MixtralAWQForCausalLM.get_layers_for_scaling module input_feat module_kwargs).length =
      (if module.self_attn.v_proj.weight.shape = module.self_attn.o_proj.weight.shape
       then 3 else 2) + module.block_sparse_moe.experts.length ∧
    (MixtralAWQForCausalLM.get_layers_for_scaling module input_feat module_kwargs).head? =
      some (attnInputDescriptor module input_feat module_kwargs) ∧
    (MixtralAWQForCausalLM.get_layers_for_scaling module input_feat module_kwargs).drop
        ((MixtralAWQForCausalLM.get_layers_for_scaling module input_feat
            module_kwargs).length - module.block_sparse_moe.experts.length) =
      module.block_sparse_moe.experts.enum.map
        (fun ie => expertW2Descriptor input_feat ie.1 ie.2) := by
  rw [get_layers_for_scaling_eq]
  refine ⟨?_, ?_, ?_⟩
  · split <;> simp [List.enum_length] <;> omega
  · simp
  · have h := drop_length_sub_append
      ([attnInputDescriptor module input_feat module_kwargs]
        ++ (if module.self_attn.v_proj.weight.shape = module.self_attn.o_proj.weight.shape
            then [attnOutDescriptor module input_feat] else [])
        ++ [moeDescriptor module input_feat])
      (module.block_sparse_moe.experts.enum.map
        (fun ie => expertW2Descriptor input_feat ie.1 ie.2))
    simpa [List.append_assoc, List.enum_length] using h

/-- C10: whenever the version string does not split into exactly three or
exactly four dot-separated components, `_transformers_version_check` fails
with the unhandled `ValueError` from tuple unpacking — it neither passes nor
reaches the user-facing compatibility error. -/
theorem transformers_version_check_unpack_failure (version : String)
    (h3 : (pySplitDot version).length ≠ 3) (h4 : (pySplitDot version).length ≠ 4) :
    transformers_version_check version = Except.error CheckError.unpack := by
  unfold transformers_version_check
  rcases hs : pySplitDot version with _ | ⟨a, _ | ⟨b, _ | ⟨c, _ | ⟨d, _ | ⟨e, rest⟩⟩⟩⟩⟩
  · rfl
  · rfl
  · rfl
  · rw [hs] at h3
    simp at h3
  · rw [hs] at h4
    simp at h4
  · rfl

/-- C10 witness: the two-component version string `"4.37"` unpacks neither as
three nor as four components and fails with the unpacking `ValueError`. -/
theorem transformers_version_check_unpack_failure_witness :
    (pySplitDot "4.37").length ≠ 3 ∧ (pySplitDot "4.37").length ≠ 4 ∧
    transformers_version_check "4.37" = Except.error CheckError.unpack :=
  ⟨by decide, by decide,
    transformers_version_check_unpack_failure "4.37" (by decide) (by decide)⟩

end Awq
